import Mathlib

/-!
Verification of the `SciQ` dimensional-analysis header
(`ScientificQuantities.hpp`).

The C++ library encodes a physical dimension as seven compile-time
`std::ratio` exponents (length L, mass M, time T, electric current EC,
thermodynamic temperature TT, amount of substance AS, luminous
intensity LI) attached to a `Quantity` that stores a single `double`
value.  `std::ratio` keeps an exact reduced rational, which we model by
Lean's `Rat` (also stored reduced, with positive denominator).  `double`
values are modeled by `ℚ` (for the arithmetic and parsing claims, whose
concrete values are all exactly representable doubles) or by `ℝ` (for
`sqrt`).  Fallible paths are modeled with `Except`; an uncaught C++
exception is an `Except.error`.
-/

set_option autoImplicit false

namespace SciQ

/-- The seven base-quantity exponents of a `Quantity<L,M,T,EC,TT,AS,LI>`.
Each field models one `std::ratio` template argument (an exact reduced
rational). -/
structure Dimension where
  L : ℚ
  M : ℚ
  T : ℚ
  EC : ℚ
  TT : ℚ
  AS : ℚ
  LI : ℚ
  deriving DecidableEq, Repr

/-- Elementwise sum of exponents: the `std::ratio_add` result dimension of
`operator*(Quantity, Quantity)` (header lines 204-211). -/
def Dimension.add (a b : Dimension) : Dimension :=
  ⟨a.L + b.L, a.M + b.M, a.T + b.T, a.EC + b.EC, a.TT + b.TT, a.AS + b.AS, a.LI + b.LI⟩

/-- Elementwise difference of exponents: the `std::ratio_subtract` result
dimension of `operator/(Quantity, Quantity)` (header lines 213-220). -/
def Dimension.sub (a b : Dimension) : Dimension :=
  ⟨a.L - b.L, a.M - b.M, a.T - b.T, a.EC - b.EC, a.TT - b.TT, a.AS - b.AS, a.LI - b.LI⟩

/-- Elementwise `std::ratio_divide<X, std::ratio<2>>`: the result dimension
of `sqrt` (header lines 350-357).  `ratio_divide` is exact rational
division, so every exponent is halved exactly. -/
def Dimension.divTwo (a : Dimension) : Dimension :=
  ⟨a.L / 2, a.M / 2, a.T / 2, a.EC / 2, a.TT / 2, a.AS / 2, a.LI / 2⟩

/-- Elementwise `std::ratio_multiply<X, std::ratio<p>>`: the result
dimension of `pow<p>` (header lines 360-367). -/
def Dimension.mulInt (p : ℤ) (a : Dimension) : Dimension :=
  ⟨a.L * p, a.M * p, a.T * p, a.EC * p, a.TT * p, a.AS * p, a.LI * p⟩

/-- The result dimension of `operator/(T, Quantity)` (header lines
340-345).  The C++ writes `std::ratio<-L::num>` for every axis: only the
numerator is negated and the denominator is dropped (it defaults to 1),
so an exponent `num/den` becomes the integer `-num`. -/
def Dimension.negNum (a : Dimension) : Dimension :=
  ⟨-(a.L.num : ℚ), -(a.M.num : ℚ), -(a.T.num : ℚ), -(a.EC.num : ℚ),
    -(a.TT.num : ℚ), -(a.AS.num : ℚ), -(a.LI.num : ℚ)⟩

/-- Follows the spec's words (§4.1): `scale(a, k)` is elementwise
multiplication of the exponents by a rational `k`.  Used to compare the
code's dimension computations against the spec's. -/
def Dimension.scale (k : ℚ) (a : Dimension) : Dimension :=
  ⟨k * a.L, k * a.M, k * a.T, k * a.EC, k * a.TT, k * a.AS, k * a.LI⟩

/-- Follows the spec's words (§4.2 `reciprocalScalar`): the elementwise
negation of a dimension vector. -/
def Dimension.specNeg (a : Dimension) : Dimension :=
  ⟨-a.L, -a.M, -a.T, -a.EC, -a.TT, -a.AS, -a.LI⟩

/-- All seven exponents are integers (every `std::ratio` has denominator
1).  This holds for every dimension built from the base dimensions by
`add`/`sub`/`negNum`, and fails for the fractional dimensions produced
by `sqrt`. -/
def Dimension.IsIntegral (a : Dimension) : Prop :=
  a.L.den = 1 ∧ a.M.den = 1 ∧ a.T.den = 1 ∧ a.EC.den = 1 ∧
    a.TT.den = 1 ∧ a.AS.den = 1 ∧ a.LI.den = 1

instance (a : Dimension) : Decidable a.IsIntegral := by
  unfold Dimension.IsIntegral; infer_instance

/-- `Length = Quantity<1,0,0,0,0,0,0>` (header line 371). -/
def dimLength : Dimension := ⟨1, 0, 0, 0, 0, 0, 0⟩

/-- `Mass = Quantity<0,1,0,0,0,0,0>` (header line 372). -/
def dimMass : Dimension := ⟨0, 1, 0, 0, 0, 0, 0⟩

/-- `Time = Quantity<0,0,1,0,0,0,0>` (header line 373). -/
def dimTime : Dimension := ⟨0, 0, 1, 0, 0, 0, 0⟩

/-- `Angle = Quantity<0,0,0,0,0,0,0>` (header line 403): the all-zero,
dimensionless vector. -/
def dimAngle : Dimension := ⟨0, 0, 0, 0, 0, 0, 0⟩

/-- `Area = decltype(Length()*Length())` (header line 383). -/
def dimArea : Dimension := dimLength.add dimLength

/-- `Speed = decltype(Length()/Time())` (header line 385). -/
def dimSpeed : Dimension := dimLength.sub dimTime

/-- `Acceleration = decltype(Speed()/Time())` (header line 386). -/
def dimAcceleration : Dimension := dimSpeed.sub dimTime

/-- `Force = decltype(Mass()*Acceleration())` (header line 406). -/
def dimForce : Dimension := dimMass.add dimAcceleration

/-- `Pressure = decltype(Force()/Area())` (header line 407). -/
def dimPressure : Dimension := dimForce.sub dimArea

/-- A `Quantity<L,M,T,EC,TT,AS,LI>` instance: its dimension vector (the
template arguments) together with the stored `double value` (header
lines 74-185), modeled over a value type `α` (`ℚ` or `ℝ`). -/
structure Quantity (α : Type) where
  dim : Dimension
  value : α
  deriving DecidableEq, Repr

/-- `operator*(Quantity, Quantity)` (header lines 204-211): value
product, `ratio_add` dimensions. -/
def qmul {α : Type} [Mul α] (lhs rhs : Quantity α) : Quantity α :=
  ⟨lhs.dim.add rhs.dim, lhs.value * rhs.value⟩

/-- `operator/(Quantity, Quantity)` (header lines 213-220): value
quotient, `ratio_subtract` dimensions.  There is no check of the
divisor: C++ IEEE division by zero yields ±inf or NaN without raising
anything (modeled here by Lean's junk value `x / 0 = 0`; neither model
signals an error). -/
def qdiv {α : Type} [Div α] (lhs rhs : Quantity α) : Quantity α :=
  ⟨lhs.dim.sub rhs.dim, lhs.value / rhs.value⟩

/-- `operator*(T, Quantity)` (header lines 326-331): scalar times
quantity, same dimension. -/
def smul {α : Type} [Mul α] (lhs : α) (rhs : Quantity α) : Quantity α :=
  ⟨rhs.dim, lhs * rhs.value⟩

/-- `operator/(T, Quantity)` (header lines 340-345): scalar divided by
quantity.  The dimension is `Dimension.negNum` — the numerator-only
negation written in the C++ return type — and the value is `lhs /
rhs.getValue()` (again with no zero check). -/
def sdiv {α : Type} [Div α] (lhs : α) (rhs : Quantity α) : Quantity α :=
  ⟨rhs.dim.negNum, lhs / rhs.value⟩

/-- `pow<power>(Quantity)` (header lines 360-367): the value is
`std::pow(value, (double)power)` — exact integer power whenever the
result is representable, modeled by `zpow` — and the dimension is
`ratio_multiply` by `power`. -/
def pow (p : ℤ) (a : Quantity ℚ) : Quantity ℚ :=
  ⟨a.dim.mulInt p, a.value ^ p⟩

/-- `sqrt(Quantity)` (header lines 350-357): the value is
`std::sqrt(value)` — the principal real square root, modeled by
`Real.sqrt` — and the dimension is `ratio_divide` by 2.  There is no
sign check: for a negative argument `std::sqrt` returns NaN without
raising anything (modeled by `Real.sqrt`'s junk value 0; neither model
signals an error). -/
noncomputable def sqrt (a : Quantity ℝ) : Quantity ℝ :=
  ⟨a.dim.divTwo, Real.sqrt a.value⟩

/-- `constexpr Length meter { 1.0 }` (header line 506). -/
def meter : Quantity ℚ := ⟨dimLength, 1⟩

/-- `constexpr Length kilometer { kilo * meter }` with `kilo = 1.0e3`
(header lines 473, 508). -/
def kilometer : Quantity ℚ := smul 1000 meter

/-- `constexpr Time second { 1.0 }` (header line 557). -/
def second : Quantity ℚ := ⟨dimTime, 1⟩

/-- `constexpr Time minute { 60.0 * second }` (header line 558). -/
def minute : Quantity ℚ := smul 60 second

/-- `constexpr Time hour { 60.0 * minute }` (header line 559). -/
def hour : Quantity ℚ := smul 60 minute

/-- `constexpr Pressure pascal { 1.0 }` (header line 672). -/
def pascal : Quantity ℚ := ⟨dimPressure, 1⟩

/-- `constexpr Pressure bar { 1.0e5 * pascal }` (header line 673). -/
def bar : Quantity ℚ := smul 100000 pascal

/-- `operator"" _km(long double x) { return Length(x*1e3); }` (header
line 691). -/
def lit_km (x : ℚ) : Quantity ℚ := ⟨dimLength, x * 1000⟩

/-- `operator"" _nm(long double x) { return Length(x/1.e6); }` (header
line 699).  Note the divisor `1.e6`: this is the micron scale, not the
nanometre scale `1.e9` (the header's own `nano` prefix is `1.0e-9`,
line 480). -/
def lit_nm (x : ℚ) : Quantity ℚ := ⟨dimLength, x / 1000000⟩

/-- `operator"" _hr(long double x) { return Time(x*60*24); }` (header
line 715).  Note the factor `60*24 = 1440`, while the header's own
`hour` constant is `60.0 * minute = 3600` seconds. -/
def lit_hr (x : ℚ) : Quantity ℚ := ⟨dimTime, x * 60 * 24⟩

/-- `operator"" _bar(long double x) { return Pressure(x*10e5); }`
(header line 773).  Note the factor `10e5 = 1.0e6`, while the header's
own `bar` constant is `1.0e5` pascal. -/
def lit_bar (x : ℚ) : Quantity ℚ := ⟨dimPressure, x * 1000000⟩

/-- Whitespace tokenizer accumulator: models the `while (ss >> buf)`
extraction loop of `from_string` (header lines 1208-1213), which skips
whitespace and collects maximal non-whitespace runs. -/
def wordsAux : List Char → List Char → List (List Char)
  | [], acc => if acc = [] then [] else [acc.reverse]
  | c :: cs, acc =>
    if c.isWhitespace then
      if acc = [] then wordsAux cs [] else acc.reverse :: wordsAux cs []
    else wordsAux cs (c :: acc)

/-- The `unit_vector` built by `from_string` from its input string: the
whitespace-separated tokens, in order. -/
def splitWS (s : String) : List String :=
  (wordsAux s.toList []).map List.asString

/-- Outcome of `std::stod` on the number token: a value, or one of the
two exceptions `std::stod` can throw. -/
inductive StodResult where
  | ok (q : ℚ)
  | invalidArgument
  | outOfRange
  deriving DecidableEq, Repr

/-- Value of a decimal digit string (most significant first). -/
def natOfDigits (l : List Char) : ℕ :=
  l.foldl (fun n c => n * 10 + (c.toNat - 48)) 0

/-- The largest finite `double`, `DBL_MAX = (2^53 - 1) * 2^971`.
`std::stod` throws `std::out_of_range` when the converted value's
magnitude exceeds it. -/
def DBL_MAX : ℚ := (((2 ^ 53 - 1) * 2 ^ 971 : ℕ) : ℚ)

/-- Model of `std::stod` restricted to ordinary decimal forms (the only
forms the spec and claims exercise; hexadecimal, `inf` and `nan`
spellings are outside this model).  Following `strtod`, it skips
leading whitespace, accepts an optional sign, integer digits, an
optional fraction, and an optional well-formed exponent; any trailing
junk is ignored.  It returns `invalidArgument` when no digit is found,
and `outOfRange` when the value's magnitude exceeds `DBL_MAX`.  The
returned value is the exact rational denoted by the text (a faithful
model whenever that rational is exactly representable as a `double`,
which holds for every token these claims evaluate). -/
def stod (s : String) : StodResult :=
  let cs0 := s.toList.dropWhile (·.isWhitespace)
  let sgn : ℚ := if cs0.head? = some '-' then -1 else 1
  let cs1 := if cs0.head? = some '-' ∨ cs0.head? = some '+' then cs0.tail else cs0
  let intd := cs1.takeWhile (·.isDigit)
  let cs2 := cs1.drop intd.length
  let fracd := if cs2.head? = some '.' then cs2.tail.takeWhile (·.isDigit) else []
  let cs3 := if cs2.head? = some '.' then cs2.tail.drop fracd.length else cs2
  if intd = [] ∧ fracd = [] then .invalidArgument
  else
    let mant : ℚ := (natOfDigits intd : ℚ) + (natOfDigits fracd : ℚ) / ((10 ^ fracd.length : ℕ) : ℚ)
    let e : ℤ :=
      if cs3.head? = some 'e' ∨ cs3.head? = some 'E' then
        let es := cs3.tail
        let esgn : ℤ := if es.head? = some '-' then -1 else 1
        let es1 := if es.head? = some '-' ∨ es.head? = some '+' then es.tail else es
        let expd := es1.takeWhile (·.isDigit)
        if expd = [] then 0 else esgn * (natOfDigits expd : ℤ)
      else 0
    let scal : ℚ := if 0 ≤ e then ((10 ^ e.toNat : ℕ) : ℚ) else 1 / ((10 ^ (-e).toNat : ℕ) : ℚ)
    let v : ℚ := sgn * mant * scal
    if v > DBL_MAX ∨ v < -DBL_MAX then .outOfRange else .ok v

/-- The `UNITS` vector of `from_string` (header lines 1160-1203): the
`FundamentalUnit<...>::Name` strings of the 42 quantities listed there,
in source order.  In particular the entry contributed by `Angle` is its
fundamental unit name `"rad"` (header lines 868-873); no `"deg"` entry
exists. -/
def UNITS : List String :=
  ["m", "kg", "s", "A", "K", "mol", "cd", "rad", "Hz", "N", "Pa", "J", "W",
    "C", "V", "F", "Ohm", "S", "Wb", "T", "H", "lx", "Gy", "kat", "Pa*s",
    "rad/s^2", "W/m^2", "J/K", "J/(kg*K)", "W/(m*K)", "V/m", "C/m^3",
    "C/m^2", "F/m", "H/m", "J/mol", "J/(mol*K)", "C/kg", "Gy/s", "kat/m^3",
    "m/s", "m/s^2"]

/-- The one C++ exception `from_string` can let escape:
`std::out_of_range` from the uncaught `std::stod` overflow (the `catch`
at header lines 1221-1224 handles only `std::invalid_argument`). -/
inductive CppExc where
  | outOfRange
  deriving DecidableEq, Repr

/-- The unit-lookup loop of `from_string` (header lines 1230-1236),
reached after `*value` has been assigned the parsed number `x`: return
`true` iff the unit token occurs in `UNITS`.  No unit scale factor is
ever applied to the stored value. -/
def checkUnit (unitTok : String) (x : ℚ) : Except CppExc (Bool × ℚ) :=
  if UNITS.contains unitTok then .ok (true, x) else .ok (false, x)

/-- The body of `from_string` after the two-token split succeeded
(header lines 1218-1236): `std::stod` on the number token, catching
only `std::invalid_argument` (→ return `false` with `*value` untouched)
while `std::out_of_range` propagates as an exception; on success the
parsed number is written to `*value` and the unit token is looked up. -/
def parseTwo (numTok unitTok : String) (value : ℚ) : Except CppExc (Bool × ℚ) :=
  match stod numTok with
  | .ok x => checkUnit unitTok x
  | .invalidArgument => .ok (false, value)
  | .outOfRange => .error .outOfRange

/-- `from_string(input_val_unit, value)` (header lines 1158-1237).
The pair carries the returned `bool` and the final contents of
`*value` (which the C++ writes through the pointer only at line 1219);
`Except.error` models an exception escaping the call.  Control flow,
in source order: split on whitespace; anything but exactly two tokens →
return `false` with `*value` untouched; otherwise `parseTwo`. -/
def from_string (input_val_unit : String) (value : ℚ) : Except CppExc (Bool × ℚ) :=
  match splitWS input_val_unit with
  | [numTok, unitTok] => parseTwo numTok unitTok value
  | _ => .ok (false, value)

/-- The `base_units` array of the generic `operator<<` (header lines
1119-1127): the seven base-axis symbols, in axis order. -/
def base_units : List String := ["m", "kg", "s", "A", "K", "mol", "cd"]

/-- The `exponents` array of the generic `operator<<` (header lines
1129-1131): the interleaved `num, den` pairs of the seven exponents. -/
def exponents (d : Dimension) : List ℤ :=
  [d.L.num, (d.L.den : ℤ), d.M.num, (d.M.den : ℤ), d.T.num, (d.T.den : ℤ),
    d.EC.num, (d.EC.den : ℤ), d.TT.num, (d.TT.den : ℤ),
    d.AS.num, (d.AS.den : ℤ), d.LI.num, (d.LI.den : ℤ)]

/-- One iteration (index `i = 0, 2, ..., 12`) of the loop in the generic
`operator<<` (header lines 1133-1145), as the text it appends.  Note
the C++ writes `base_units[i]` with the same doubled index `i` used for
`exponents`: for `i ≥ 7` this reads past the end of the 7-element array
(undefined behavior in C++, modeled here by the default `""`); for
`i = 2, 4, 6` it reads the wrong axis's symbol. -/
def pieceAt (d : Dimension) (i : ℕ) : String :=
  let num := (exponents d).getD i 0
  let den := (exponents d).getD (i + 1) 1
  if num = 0 then ""
  else
    (if num = 1 ∧ den = 1 then " " ++ base_units.getD i ""
     else " " ++ base_units.getD i "" ++ "^" ++ toString num) ++
      (if den ≠ 1 then "/" ++ toString den else "")

/-- Everything the generic (no registered `FundamentalUnit`)
`operator<<` (header lines 1115-1149) prints after the value
`q.getValue()`: the loop bodies for `i = 0, 2, ..., 12` concatenated. -/
def genericUnits (d : Dimension) : String :=
  pieceAt d 0 ++ pieceAt d 2 ++ pieceAt d 4 ++ pieceAt d 6 ++
    pieceAt d 8 ++ pieceAt d 10 ++ pieceAt d 12

/-- Follows the spec's words (§4.4 generic fallback): after the value,
for each of the seven base axes with nonzero exponent, a space and that
axis's own base symbol — bare for exponent 1, `^num` for an integer
exponent, `^num/den` for a fractional one — and nothing for
zero-exponent axes. -/
def axisPiece (sym : String) (q : ℚ) : String :=
  if q.num = 0 then ""
  else if q.num = 1 ∧ q.den = 1 then " " ++ sym
  else if q.den = 1 then " " ++ sym ++ "^" ++ toString q.num
  else " " ++ sym ++ "^" ++ toString q.num ++ "/" ++ toString (q.den : ℤ)

/-- Follows the spec's words (§4.4): the generic unit suffix with each
axis rendered with its own base symbol. -/
def genericUnitsSpec (d : Dimension) : String :=
  axisPiece "m" d.L ++ axisPiece "kg" d.M ++ axisPiece "s" d.T ++
    axisPiece "A" d.EC ++ axisPiece "K" d.TT ++ axisPiece "mol" d.AS ++
    axisPiece "cd" d.LI

/-- The spec's error kinds (§7), used to state the spec-side contracts
that the error-handling claims compare the code against. -/
inductive SQError where
  | dimensionMismatch
  | divisionByZero
  | invalidOperand
  | parseError
  | notFound
  deriving DecidableEq, Repr

/-- Follows the spec's words (§4.2 `divide`): fails with
`DivisionByZero` if `b.value == 0`, otherwise value `a.value / b.value`
and dimension `subtract(D1, D2)`. -/
def divideSpec (a b : Quantity ℚ) : Except SQError (Quantity ℚ) :=
  if b.value = 0 then .error .divisionByZero
  else .ok ⟨a.dim.sub b.dim, a.value / b.value⟩

/-- The result of a call to the C++ `operator/(Quantity, Quantity)` as
an `Except`: the operator's return type is a plain `Quantity` and IEEE
division raises nothing, so the call always returns normally. -/
def qdivE (a b : Quantity ℚ) : Except SQError (Quantity ℚ) :=
  .ok (qdiv a b)

/-- Follows the spec's words (§4.2 `sqrt`): fails with `InvalidOperand`
if `a.value < 0`, otherwise the principal real square root with
dimension `scale(D, 1/2)`. -/
noncomputable def sqrtSpec (a : Quantity ℝ) : Except SQError (Quantity ℝ) :=
  if a.value < 0 then .error .invalidOperand
  else .ok ⟨a.dim.scale (1 / 2), Real.sqrt a.value⟩

/-- The result of a call to the C++ `sqrt` as an `Except`: its return
type is a plain `Quantity` and `std::sqrt` raises nothing (it returns
NaN for a negative argument), so the call always returns normally. -/
noncomputable def sqrtE (a : Quantity ℝ) : Except SQError (Quantity ℝ) :=
  .ok (sqrt a)

/-- Unfolding lemma: when the input splits into exactly two tokens,
`from_string` proceeds to `parseTwo` on them. -/
theorem from_string_two (s t u : String) (v : ℚ) (h : splitWS s = [t, u]) :
    from_string s v = parseTwo t u v := by
  unfold from_string; rw [h]

/-- Unfolding lemma: when the input does not split into exactly two
tokens, `from_string` returns `false` and leaves the value untouched. -/
theorem from_string_other (s : String) (v : ℚ) (h : (splitWS s).length ≠ 2) :
    from_string s v = Except.ok (false, v) := by
  unfold from_string
  match hsp : splitWS s with
  | [] => rfl
  | [t] => rfl
  | t :: u :: w :: r => rfl
  | [t, u] => rw [hsp] at h; simp at h

/-- Unfolding lemma: a number token accepted by `stod` leads to the
unit lookup with the parsed value already stored. -/
theorem parseTwo_ok (t u : String) (v x : ℚ) (h : stod t = StodResult.ok x) :
    parseTwo t u v = checkUnit u x := by
  unfold parseTwo; rw [h]

/-- Unfolding lemma: a number token rejected by `stod` with
`std::invalid_argument` is caught and yields `false` with the value
untouched. -/
theorem parseTwo_invalid (t u : String) (v : ℚ) (h : stod t = StodResult.invalidArgument) :
    parseTwo t u v = Except.ok (false, v) := by
  unfold parseTwo; rw [h]

/-- Unfolding lemma: a number token that overflows the `double` range
makes the uncaught `std::out_of_range` escape `from_string`. -/
theorem parseTwo_oor (t u : String) (v : ℚ) (h : stod t = StodResult.outOfRange) :
    parseTwo t u v = Except.error CppExc.outOfRange := by
  unfold parseTwo; rw [h]

set_option maxRecDepth 4000 in
/-- C1 (counterexample): the claim expects parsing "90 deg" to succeed
with Angle's dimension, but `from_string` recognizes only the
fundamental-unit names in `UNITS`, where the Angle entry is `"rad"`;
on "90 deg" it returns `false` (after having stored the number 90). -/
theorem from_string_90_deg_returns_false :
    from_string "90 deg" 0 = Except.ok (false, 90) := by
  with_unfolding_all rfl

set_option maxRecDepth 4000 in
/-- C1 (amended): parsing "90 rad" succeeds (returning `true` and
storing 90); "90 deg" fails because `"deg"` is not a recognized unit
name; "90degrees" (a single token) and "abc m" (non-numeric first
token) also fail — `from_string` returns only a flag and the numeric
value, never a dimension. -/
theorem from_string_angle_examples :
    from_string "90 rad" 0 = Except.ok (true, 90) ∧
    from_string "90 deg" 0 = Except.ok (false, 90) ∧
    from_string "90degrees" 0 = Except.ok (false, 0) ∧
    from_string "abc m" 0 = Except.ok (false, 0) :=
  ⟨by with_unfolding_all rfl, by with_unfolding_all rfl,
   by with_unfolding_all rfl, by with_unfolding_all rfl⟩

set_option maxRecDepth 4000 in
/-- C2 (counterexample): the claim says `from_string` never throws,
even for number tokens beyond the `double` range, but on "1e309 m" the
`std::out_of_range` thrown by `std::stod` is not caught (only
`std::invalid_argument` is) and escapes the call. -/
theorem from_string_1e309_throws :
    from_string "1e309 m" 0 = Except.error CppExc.outOfRange := by
  with_unfolding_all rfl

/-- C2 (amended): an uncaught exception escapes `from_string` only when
the input splits into exactly two tokens and the number token overflows
the `double` range; every other input — wrong token count, non-numeric
first token, unrecognized unit — produces an ordinary `false` return. -/
theorem from_string_error_only_out_of_range (s : String) (v : ℚ) (e : CppExc)
    (h : from_string s v = Except.error e) :
    ∃ t u, splitWS s = [t, u] ∧ stod t = StodResult.outOfRange := by
  match hsp : splitWS s with
  | [] => rw [from_string_other s v (by rw [hsp]; simp)] at h; exact Except.noConfusion h
  | [t] => rw [from_string_other s v (by rw [hsp]; simp)] at h; exact Except.noConfusion h
  | t :: u :: w :: r =>
    rw [from_string_other s v (by rw [hsp]; simp)] at h; exact Except.noConfusion h
  | [t, u] =>
    rw [from_string_two s t u v hsp] at h
    match hst : stod t with
    | .outOfRange => exact ⟨t, u, rfl, hst⟩
    | .invalidArgument => rw [parseTwo_invalid t u v hst] at h; exact Except.noConfusion h
    | .ok x =>
      rw [parseTwo_ok t u v x hst] at h
      unfold checkUnit at h
      by_cases hc : UNITS.contains u = true
      · rw [if_pos hc] at h; exact Except.noConfusion h
      · rw [if_neg hc] at h; exact Except.noConfusion h

set_option maxRecDepth 4000 in
/-- C2 (witness): the amended theorem applied to the concrete throwing
input "1e309 m". -/
theorem from_string_error_only_out_of_range_witness :
    ∃ t u, splitWS "1e309 m" = [t, u] ∧ stod t = StodResult.outOfRange :=
  from_string_error_only_out_of_range "1e309 m" 0 CppExc.outOfRange (by with_unfolding_all rfl)

set_option maxRecDepth 4000 in
/-- C3 (code bug): for a dimension with no registered fundamental unit
the generic printer is claimed to emit each nonzero axis with that
axis's own base symbol, but the loop reuses the doubled exponent index
for the 7-element symbol array: a mass-squared quantity prints as
`" s^2"` (the Time symbol) instead of the spec's `" kg^2"` (and for the
last three axes the C++ indexes past the end of the array). -/
theorem genericUnits_mass_squared_wrong_symbol :
    genericUnits (dimMass.add dimMass) = " s^2" ∧
    genericUnitsSpec (dimMass.add dimMass) = " kg^2" :=
  ⟨by with_unfolding_all rfl, by with_unfolding_all rfl⟩

/-- C4 (confirmed): whenever the input is `"<x> <u>"` with `u` a
recognized unit name, `from_string` stores exactly the number parsed
from the first token — no unit scale factor is ever applied. -/
theorem from_string_stores_raw_value (s : String) (v : ℚ) (t u : String) (x : ℚ)
    (h1 : splitWS s = [t, u]) (h2 : stod t = StodResult.ok x)
    (h3 : UNITS.contains u = true) :
    from_string s v = Except.ok (true, x) := by
  rw [from_string_two s t u v h1, parseTwo_ok t u v x h2]
  unfold checkUnit
  rw [if_pos h3]

set_option maxRecDepth 4000 in
/-- C4 (witness): the theorem applied to the concrete input "5 m". -/
theorem from_string_stores_raw_value_witness :
    from_string "5 m" 7 = Except.ok (true, 5) :=
  from_string_stores_raw_value "5 m" 7 "5" "m" 5
    (by with_unfolding_all rfl) (by with_unfolding_all rfl) (by rfl)

/-- C5 (counterexample): the spec's `divide` contract demands a
`DivisionByZero` failure when the divisor's value is zero, but the C++
`operator/(Quantity, Quantity)` has no such check — its return type has
no error channel and IEEE division raises nothing, so the call returns
normally even for a zero divisor. -/
theorem qdiv_zero_divisor_not_error :
    divideSpec ⟨dimLength, 1⟩ ⟨dimTime, 0⟩ = Except.error SQError.divisionByZero ∧
    qdivE ⟨dimLength, 1⟩ ⟨dimTime, 0⟩ ≠ Except.error SQError.divisionByZero :=
  ⟨by with_unfolding_all rfl, fun h => Except.noConfusion h⟩

/-- C5 (amended): `operator/(Quantity, Quantity)` never signals an
error; its result always carries the elementwise-difference dimension,
and for a nonzero divisor its value is the quotient of the stored
values (characterized multiplicatively). -/
theorem qdiv_dim_and_value (a b : Quantity ℚ) (h : b.value ≠ 0) :
    (qdiv a b).dim = a.dim.sub b.dim ∧ (qdiv a b).value * b.value = a.value :=
  ⟨rfl, div_mul_cancel₀ a.value h⟩

/-- C5 (witness): the amended theorem applied to 6 metres divided by
2 seconds. -/
theorem qdiv_dim_and_value_witness :
    (qdiv ⟨dimLength, 6⟩ ⟨dimTime, 2⟩).dim = dimLength.sub dimTime ∧
    (qdiv ⟨dimLength, 6⟩ ⟨dimTime, 2⟩).value * (2 : ℚ) = 6 :=
  qdiv_dim_and_value ⟨dimLength, 6⟩ ⟨dimTime, 2⟩ (by norm_num)

/-- C6 (counterexample): the spec's `sqrt` contract demands an
`InvalidOperand` failure for a negative magnitude, but the C++ `sqrt`
has no sign check — `std::sqrt` returns NaN for a negative argument
without raising anything, so the call returns normally. -/
theorem sqrt_negative_not_error :
    sqrtSpec ⟨dimLength, -1⟩ = Except.error SQError.invalidOperand ∧
    sqrtE ⟨dimLength, -1⟩ ≠ Except.error SQError.invalidOperand :=
  ⟨by simp [sqrtSpec], fun h => Except.noConfusion h⟩

/-- C6 (amended): `sqrt` never signals an error; its result dimension
is the spec's `scale(D, 1/2)` (every exponent halved exactly, since
`ratio_divide` is exact rational division), and for a nonnegative
magnitude its value is the principal real square root. -/
theorem sqrt_halves_dim_principal_root (a : Quantity ℝ) (h : 0 ≤ a.value) :
    (sqrt a).dim = a.dim.scale (1 / 2) ∧
    0 ≤ (sqrt a).value ∧ (sqrt a).value ^ 2 = a.value := by
  refine ⟨?_, Real.sqrt_nonneg _, Real.sq_sqrt h⟩
  obtain ⟨⟨dL, dM, dT, dEC, dTT, dAS, dLI⟩, v⟩ := a
  simp only [sqrt, Dimension.divTwo, Dimension.scale, Dimension.mk.injEq]
  refine ⟨?_, ?_, ?_, ?_, ?_, ?_, ?_⟩ <;> ring

/-- C6 (witness): the amended theorem applied to a zero-valued
length. -/
theorem sqrt_halves_dim_principal_root_witness :
    (sqrt ⟨dimLength, 0⟩).dim = dimLength.scale (1 / 2) ∧
    0 ≤ (sqrt ⟨dimLength, 0⟩).value ∧ (sqrt ⟨dimLength, 0⟩).value ^ 2 = 0 :=
  sqrt_halves_dim_principal_root ⟨dimLength, 0⟩ (le_refl 0)

/-- C7 (counterexample): scalar-over-quantity division is claimed to
negate each of the seven rational exponents exactly, but the C++ writes
`std::ratio<-L::num>`, so on the fractional dimension of `sqrt(meter)`
(length exponent 1/2) the result's length exponent is the integer -1,
not -1/2. -/
theorem sdiv_fractional_dim_not_negated :
    (sdiv (1 : ℚ) ⟨dimLength.divTwo, 1⟩).dim ≠ (dimLength.divTwo).specNeg := by
  with_unfolding_all decide

/-- C7 (amended): the result dimension of `operator/(T, Quantity)` is
the numerator-only negation, which coincides with the spec's
elementwise negation exactly when all seven exponents are integers; the
value is always the scalar divided by the stored value. -/
theorem sdiv_integral_dim_negated (k : ℚ) (a : Quantity ℚ) (h : a.dim.IsIntegral) :
    (sdiv k a).dim = a.dim.specNeg ∧ (sdiv k a).value = k / a.value := by
  obtain ⟨h1, h2, h3, h4, h5, h6, h7⟩ := h
  refine ⟨?_, rfl⟩
  simp only [sdiv, Dimension.negNum, Dimension.specNeg, Dimension.mk.injEq]
  exact ⟨by rw [(Rat.den_eq_one_iff _).mp h1], by rw [(Rat.den_eq_one_iff _).mp h2],
    by rw [(Rat.den_eq_one_iff _).mp h3], by rw [(Rat.den_eq_one_iff _).mp h4],
    by rw [(Rat.den_eq_one_iff _).mp h5], by rw [(Rat.den_eq_one_iff _).mp h6],
    by rw [(Rat.den_eq_one_iff _).mp h7]⟩

/-- C7 (witness): the amended theorem applied to 3 divided by a
2-valued length (integral exponents). -/
theorem sdiv_integral_dim_negated_witness :
    (sdiv (3 : ℚ) ⟨dimLength, 2⟩).dim = dimLength.specNeg ∧
    (sdiv (3 : ℚ) ⟨dimLength, 2⟩).value = 3 / 2 :=
  sdiv_integral_dim_negated 3 ⟨dimLength, 2⟩ (by with_unfolding_all decide)

/-- C8 (confirmed): `pow<2>(meter)` equals `meter * meter` exactly
(both store the value 1), and its dimension equals the elementwise sum
of the Length dimension with itself. -/
theorem pow_two_meter_eq_square :
    pow 2 meter = qmul meter meter ∧ (pow 2 meter).dim = dimLength.add dimLength := by
  constructor
  · simp only [pow, qmul, meter, Dimension.mulInt, Dimension.add, dimLength,
      Quantity.mk.injEq, Dimension.mk.injEq]
    norm_num
  · simp only [pow, meter, Dimension.mulInt, Dimension.add, dimLength, Dimension.mk.injEq]
    norm_num

/-- C9 (code bug): the literal suffixes are claimed to be sugar for
multiplying by the registry's named unit constant, but `_hr` scales by
60*24 = 1440 while the registry's `hour` is 3600 seconds, `_bar` scales
by `10e5` = 1000000 while the registry's `bar` is 100000 pascal, and
`_nm` divides by 1e6 (the micron scale) although the header's `nano`
prefix is 1e-9; `_km` by contrast does agree with `kilometer`. -/
theorem literal_suffixes_diverge_from_registry :
    (lit_hr 1).value = 1440 ∧ (smul (1 : ℚ) hour).value = 3600 ∧
    lit_hr 1 ≠ smul 1 hour ∧
    (lit_bar 1).value = 1000000 ∧ (smul (1 : ℚ) bar).value = 100000 ∧
    lit_bar 1 ≠ smul 1 bar ∧
    (lit_nm 1).value = 1 / 1000000 ∧
    lit_km 1 = smul 1 kilometer :=
  ⟨by with_unfolding_all rfl, by with_unfolding_all rfl,
   by with_unfolding_all decide, by with_unfolding_all rfl,
   by with_unfolding_all rfl, by with_unfolding_all decide,
   by with_unfolding_all rfl, by with_unfolding_all rfl⟩

/-- C10 (confirmed): `from_string` writes the parsed number through its
output pointer before checking the unit token, so the value is
overwritten even when the unit is unrecognized and the function returns
`false`; the value is left unchanged exactly on the wrong-token-count
and non-numeric-token failure paths. -/
theorem from_string_value_write_discipline (s : String) (v : ℚ) :
    (∀ t u x, splitWS s = [t, u] → stod t = StodResult.ok x →
        UNITS.contains u = false → from_string s v = Except.ok (false, x)) ∧
    (∀ t u, splitWS s = [t, u] → stod t = StodResult.invalidArgument →
        from_string s v = Except.ok (false, v)) ∧
    ((splitWS s).length ≠ 2 → from_string s v = Except.ok (false, v)) := by
  refine ⟨?_, ?_, ?_⟩
  · intro t u x h1 h2 h3
    rw [from_string_two s t u v h1, parseTwo_ok t u v x h2]
    unfold checkUnit
    rw [if_neg (by rw [h3]; simp)]
  · intro t u h1 h2
    rw [from_string_two s t u v h1, parseTwo_invalid t u v h2]
  · exact from_string_other s v

set_option maxRecDepth 4000 in
/-- C10 (witness): the theorem applied to "5 xyz" (unit unrecognized:
returns false yet the value 7 was overwritten by 5), "abc m"
(non-numeric token: value untouched) and "90degrees" (one token: value
untouched). -/
theorem from_string_value_write_discipline_witness :
    from_string "5 xyz" 7 = Except.ok (false, 5) ∧
    from_string "abc m" 7 = Except.ok (false, 7) ∧
    from_string "90degrees" 7 = Except.ok (false, 7) :=
  ⟨(from_string_value_write_discipline "5 xyz" 7).1 "5" "xyz" 5
      (by with_unfolding_all rfl) (by with_unfolding_all rfl) (by rfl),
   (from_string_value_write_discipline "abc m" 7).2.1 "abc" "m"
      (by with_unfolding_all rfl) (by with_unfolding_all rfl),
   (from_string_value_write_discipline "90degrees" 7).2.2 (by with_unfolding_all decide)⟩

end SciQ
